import Mathlib

/-!
Shallow embedding of the `app-backend` service: a bounded list of bot records
and a single user point balance, persisted to two JSON documents and mutated
by three HTTP handlers (`POST /api/bots`, `POST /api/bots/verify/:botId`) plus
a startup loader.

The repository holds three near-duplicate variants of the server:
  * `server.js` (first half): single-user, self-healing `loadData`;
  * `server.js` (second half): single-user, minimal `loadData` that only
    resets memory on a read/parse failure and never rewrites the disk;
  * the per-user variant: adds a `userId` field to requests and records,
    scopes the private-bot quota to the requesting `userId`, and adds the
    verify endpoint.

File I/O is modeled by oracles: each handler receives the success/failure
outcome of every write it may attempt, and reports the list of write
attempts it performed, in order.  A handler whose JavaScript original would
throw out of the route callback without sending a response (an `await` that
rejects outside any `try`) yields `resp = none`.

JavaScript numbers for `points` are modeled as `Int`.  After the load
coercion `Number(x) || 0` the stored value is a real number, never `NaN`,
so the `isNaN(userInfo.points)` disjunct of validation 5 is vacuous and is
omitted from the embedding.
-/

namespace AppBackend

inductive BotStatus
  | waitingForVerification
  | verified
deriving DecidableEq

/-- A bot record as constructed by the handler.  `userId = none` models a
JavaScript object without the field (the single-user variants). -/
structure BotRecord where
  id : String
  username : String
  status : BotStatus
  createdAt : Nat
  verificationDeadline : Nat
  isPrivate : Bool
  userId : Option String
deriving DecidableEq

/-- The `userInfo` container.  `userId = none` models an absent field. -/
structure UserInfo where
  points : Int
  userId : Option String
deriving DecidableEq

/-- The module-level mutable state: `bots`, `botCount`, `userInfo`. -/
structure ServerState where
  bots : List BotRecord
  botCount : Nat
  userInfo : UserInfo
deriving DecidableEq

def maxBots : Nat := 20

def maxPrivateBots : Nat := 5

/-- One full-document disk write, to one of the two JSON files. -/
inductive WriteOp
  | saveUser
  | saveBots
deriving DecidableEq

inductive ApiError
  | privateRequired        -- 400: private bot checkbox must be checked
  | usernameRequired       -- 400: please enter a username for the bot
  | botLimitReached        -- 400: maximum bot limit (20) reached
  | privateBotLimitReached -- 400: maximum private bot limit (5) reached
  | insufficientPoints     -- 400: insufficient points
  | pointsSaveFailed       -- 500: error saving points
  | botSaveFailed          -- 500: error saving bot
  | botNotFound            -- 404: bot not found
  | verifySaveFailed       -- 500: error verifying bot
deriving DecidableEq

inductive Resp
  | created (bot : BotRecord)       -- 200 {message, bot}
  | verifiedMsg (username : String) -- 200 {message}
  | err (httpStatus : Nat) (e : ApiError)
deriving DecidableEq

/-- Result of one request: the post-request in-memory state, the HTTP
response (`none` when the handler threw without responding), and the disk
writes attempted, in order (failed attempts included). -/
structure Outcome where
  state : ServerState
  resp : Option Resp
  writes : List WriteOp
deriving DecidableEq

/-- JS string truthiness: `undefined` and the empty string are falsy, so
`!username` rejects exactly these. -/
def jsStrFalsy : Option String → Bool
  | none => true
  | some s => s == ""

/-- The JS idiom `u || d` on an optional string field. -/
def jsOrDefault (u : Option String) (d : String) : String :=
  match u with
  | none => d
  | some s => if s == "" then d else s

/-- The character for one decimal digit (`48` is the code point of `0`). -/
def digitChar (d : Nat) : Char := Char.ofNat (48 + d)

/-- Big-endian decimal digits of `n`, with explicit fuel so that the
recursion is structural and kernel-evaluable. -/
def decDigitsAux : Nat → Nat → List Nat
  | 0, _ => []
  | _ + 1, 0 => []
  | fuel + 1, n + 1 => decDigitsAux fuel ((n + 1) / 10) ++ [(n + 1) % 10]

def decDigits (n : Nat) : List Nat := decDigitsAux n n

/-- Decimal rendering of a natural number, as JS template interpolation of
`Date.now()` produces. -/
def natDecimal (n : Nat) : String :=
  if n = 0 then "0"
  else String.mk ((decDigits n).map digitChar)

/-- The generated record id: `` `bot_${Date.now()}` ``. -/
def botIdOf (now : Nat) : String := "bot_" ++ natDecimal now

def dayMillis : Nat := 24 * 60 * 60 * 1000

/-- A creation request body plus the `Date.now()` value observed while the
handler runs. -/
structure CreateReq where
  username : Option String
  isPrivate : Bool
  userId : Option String
  now : Nat
deriving DecidableEq

/-- Outcomes of the disk writes the creation handler may attempt: the
step-6 `saveUserData`, the step-8 `saveBots`, and the compensating
`saveUserData` inside the bot-save catch block. -/
structure SaveOracle where
  userSaveOk : Bool
  botsSaveOk : Bool
  compSaveOk : Bool
deriving DecidableEq

/-- The record object built by the single-user variants (no `userId`). -/
def mkBotGlobal (req : CreateReq) : BotRecord :=
  { id := botIdOf req.now
    username := req.username.getD ""
    status := .waitingForVerification
    createdAt := req.now
    verificationDeadline := req.now + dayMillis
    isPrivate := true
    userId := none }

/-- The record object built by the per-user variant: the stored `userId`
is the request `userId` defaulted to `guest` when falsy. -/
def mkBotPerUser (req : CreateReq) : BotRecord :=
  { id := botIdOf req.now
    username := req.username.getD ""
    status := .waitingForVerification
    createdAt := req.now
    verificationDeadline := req.now + dayMillis
    isPrivate := true
    userId := some (jsOrDefault req.userId "guest") }

/-- `POST /api/bots`, single-user variants (`server.js`, both halves): the
private-bot quota counts all private records globally. -/
def createBotGlobal (st : ServerState) (req : CreateReq) (io : SaveOracle) :
    Outcome :=
  if !req.isPrivate then
    { state := st, resp := some (.err 400 .privateRequired), writes := [] }
  else if jsStrFalsy req.username then
    { state := st, resp := some (.err 400 .usernameRequired), writes := [] }
  else if st.botCount ≥ maxBots then
    { state := st, resp := some (.err 400 .botLimitReached), writes := [] }
  else if (st.bots.filter fun b => b.isPrivate).length ≥ maxPrivateBots then
    { state := st, resp := some (.err 400 .privateBotLimitReached), writes := [] }
  else if st.userInfo.points < 250 then
    { state := st, resp := some (.err 400 .insufficientPoints), writes := [] }
  else
    let originalPoints := st.userInfo.points
    let st1 : ServerState :=
      { st with userInfo := { st.userInfo with points := st.userInfo.points - 250 } }
    if !io.userSaveOk then
      { state := { st1 with userInfo := { st1.userInfo with points := originalPoints } }
        resp := some (.err 500 .pointsSaveFailed)
        writes := [.saveUser] }
    else
      let bot := mkBotGlobal req
      let st2 : ServerState := { st1 with bots := st1.bots ++ [bot], botCount := st1.botCount + 1 }
      if io.botsSaveOk then
        { state := st2, resp := some (.created bot), writes := [.saveUser, .saveBots] }
      else
        let st3 : ServerState :=
          { st2 with bots := st2.bots.dropLast
                     botCount := st2.botCount - 1
                     userInfo := { st2.userInfo with points := originalPoints } }
        if io.compSaveOk then
          { state := st3, resp := some (.err 500 .botSaveFailed)
            writes := [.saveUser, .saveBots, .saveUser] }
        else
          -- the compensating `await saveUserData()` rejected inside the catch
          -- block: the remaining statements (the log line and the 500
          -- response) never run, so no response is sent
          { state := st3, resp := none, writes := [.saveUser, .saveBots, .saveUser] }

/-- `POST /api/bots`, per-user variant: the quota counts private records
whose stored `userId` is strictly equal (`===`) to the raw request
`userId`, while the record stores the `guest`-defaulted value. -/
def createBotPerUser (st : ServerState) (req : CreateReq) (io : SaveOracle) :
    Outcome :=
  if !req.isPrivate then
    { state := st, resp := some (.err 400 .privateRequired), writes := [] }
  else if jsStrFalsy req.username then
    { state := st, resp := some (.err 400 .usernameRequired), writes := [] }
  else if st.botCount ≥ maxBots then
    { state := st, resp := some (.err 400 .botLimitReached), writes := [] }
  else if (st.bots.filter fun b => b.isPrivate && b.userId == req.userId).length ≥ maxPrivateBots then
    { state := st, resp := some (.err 400 .privateBotLimitReached), writes := [] }
  else if st.userInfo.points < 250 then
    { state := st, resp := some (.err 400 .insufficientPoints), writes := [] }
  else
    let originalPoints := st.userInfo.points
    let st1 : ServerState :=
      { st with userInfo := { st.userInfo with points := st.userInfo.points - 250 } }
    if !io.userSaveOk then
      { state := { st1 with userInfo := { st1.userInfo with points := originalPoints } }
        resp := some (.err 500 .pointsSaveFailed)
        writes := [.saveUser] }
    else
      let bot := mkBotPerUser req
      let st2 : ServerState := { st1 with bots := st1.bots ++ [bot], botCount := st1.botCount + 1 }
      if io.botsSaveOk then
        { state := st2, resp := some (.created bot), writes := [.saveUser, .saveBots] }
      else
        let st3 : ServerState :=
          { st2 with bots := st2.bots.dropLast
                     botCount := st2.botCount - 1
                     userInfo := { st2.userInfo with points := originalPoints } }
        if io.compSaveOk then
          { state := st3, resp := some (.err 500 .botSaveFailed)
            writes := [.saveUser, .saveBots, .saveUser] }
        else
          { state := st3, resp := none, writes := [.saveUser, .saveBots, .saveUser] }

/-- Mutate the first record with the given id to `Verified`, as the JS
`bots.find(...)` reference mutation does. -/
def setVerifiedFirst : List BotRecord → String → List BotRecord
  | [], _ => []
  | b :: rest, i =>
    if b.id == i then { b with status := .verified } :: rest
    else b :: setVerifiedFirst rest i

/-- `POST /api/bots/verify/:botId` (per-user variant only). -/
def verifyBot (st : ServerState) (botId : String) (saveOk : Bool) : Outcome :=
  match st.bots.find? (fun b => b.id == botId) with
  | none => { state := st, resp := some (.err 404 .botNotFound), writes := [] }
  | some bot =>
    let st' : ServerState := { st with bots := setVerifiedFirst st.bots botId }
    if saveOk then
      { state := st', resp := some (.verifiedMsg bot.username), writes := [.saveBots] }
    else
      { state := st', resp := some (.err 500 .verifySaveFailed), writes := [.saveBots] }

/-- A parsed `user_data.json`: `points = none` models a field that is absent
or not coercible to a number (so `Number(x)` is `NaN` and `|| 0` yields 0). -/
structure RawUser where
  points : Option Int
  userId : Option String
deriving DecidableEq

/-- `loadData` of the per-user variant (self-healing): on a read/parse
failure of either document the in-memory container is reset to its default
and the on-disk document is overwritten with that default.  A document
argument of `none` is a failed read or parse. -/
def loadDataPerUser (botDoc : Option (List BotRecord)) (userDoc : Option RawUser) :
    ServerState × List WriteOp :=
  let botPart : List BotRecord × List WriteOp :=
    match botDoc with
    | some bs => (bs, [])
    | none => ([], [WriteOp.saveBots])
  let userPart : UserInfo × List WriteOp :=
    match userDoc with
    | some raw => ({ points := raw.points.getD 0, userId := some (jsOrDefault raw.userId "guest") }, [])
    | none => ({ points := 0, userId := some "guest" }, [WriteOp.saveUser])
  ({ bots := botPart.1, botCount := botPart.1.length, userInfo := userPart.1 },
   botPart.2 ++ userPart.2)

/-- `loadData` of the first `server.js` variant (self-healing, single-user):
like the per-user one but with default `{points: 0}` and no `userId`
defaulting on success. -/
def loadDataHealGlobal (botDoc : Option (List BotRecord)) (userDoc : Option RawUser) :
    ServerState × List WriteOp :=
  let botPart : List BotRecord × List WriteOp :=
    match botDoc with
    | some bs => (bs, [])
    | none => ([], [WriteOp.saveBots])
  let userPart : UserInfo × List WriteOp :=
    match userDoc with
    | some raw => ({ points := raw.points.getD 0, userId := raw.userId }, [])
    | none => ({ points := 0, userId := none }, [WriteOp.saveUser])
  ({ bots := botPart.1, botCount := botPart.1.length, userInfo := userPart.1 },
   botPart.2 ++ userPart.2)

/-- `loadData` of the second `server.js` variant: a failure only resets the
in-memory container (for user data, only the `points` field of the existing
`userInfo` object) and performs no disk write at all.  `st` is the state
before loading. -/
def loadDataPlain (st : ServerState) (botDoc : Option (List BotRecord))
    (userDoc : Option RawUser) : ServerState × List WriteOp :=
  let botPart : List BotRecord :=
    match botDoc with
    | some bs => bs
    | none => []
  let user : UserInfo :=
    match userDoc with
    | some raw => { points := raw.points.getD 0, userId := raw.userId }
    | none => { st.userInfo with points := 0 }
  ({ bots := botPart, botCount := botPart.length, userInfo := user }, [])

/-- One creation request together with its write-outcome oracle. -/
structure CreateEv where
  req : CreateReq
  io : SaveOracle
deriving DecidableEq

def stepGlobal (st : ServerState) (ev : CreateEv) : ServerState :=
  (createBotGlobal st ev.req ev.io).state

def stepPerUser (st : ServerState) (ev : CreateEv) : ServerState :=
  (createBotPerUser st ev.req ev.io).state

/-- Sequential processing of creation requests, single-user variant. -/
def runGlobal (st : ServerState) (evs : List CreateEv) : ServerState :=
  evs.foldl stepGlobal st

/-- Sequential processing of creation requests, per-user variant. -/
def runPerUser (st : ServerState) (evs : List CreateEv) : ServerState :=
  evs.foldl stepPerUser st

/-- All five validation checks of the single-user variant pass. -/
def PassesValidationGlobal (st : ServerState) (req : CreateReq) : Prop :=
  req.isPrivate = true ∧ jsStrFalsy req.username = false ∧
    st.botCount < maxBots ∧
    (st.bots.filter fun b => b.isPrivate).length < maxPrivateBots ∧
    250 ≤ st.userInfo.points

/-- All five validation checks of the per-user variant pass. -/
def PassesValidationPerUser (st : ServerState) (req : CreateReq) : Prop :=
  req.isPrivate = true ∧ jsStrFalsy req.username = false ∧
    st.botCount < maxBots ∧
    (st.bots.filter fun b => b.isPrivate && b.userId == req.userId).length < maxPrivateBots ∧
    250 ≤ st.userInfo.points

instance (st : ServerState) (req : CreateReq) :
    Decidable (PassesValidationGlobal st req) := by
  unfold PassesValidationGlobal; infer_instance

instance (st : ServerState) (req : CreateReq) :
    Decidable (PassesValidationPerUser st req) := by
  unfold PassesValidationPerUser; infer_instance

/-- Decimal parsing, left inverse of `decDigits`. -/
def parseDec (l : List Nat) : Nat := l.foldl (fun a d => a * 10 + d) 0

lemma parseDec_append_singleton (l : List Nat) (d : Nat) :
    parseDec (l ++ [d]) = parseDec l * 10 + d := by
  unfold parseDec
  rw [List.foldl_append]
  rfl

lemma parseDec_decDigitsAux : ∀ fuel n, n ≤ fuel → parseDec (decDigitsAux fuel n) = n := by
  intro fuel
  induction fuel with
  | zero =>
    intro n h
    have hn : n = 0 := Nat.le_zero.mp h
    subst hn
    rfl
  | succ fuel ih =>
    intro n h
    cases n with
    | zero => rfl
    | succ m =>
      have hdiv : (m + 1) / 10 ≤ fuel := by
        have := Nat.div_lt_self (Nat.succ_pos m) (by norm_num : 1 < 10)
        omega
      show parseDec (decDigitsAux fuel ((m + 1) / 10) ++ [(m + 1) % 10]) = m + 1
      rw [parseDec_append_singleton, ih _ hdiv]
      rw [Nat.mul_comm]
      exact Nat.div_add_mod (m + 1) 10

lemma parseDec_decDigits (n : Nat) : parseDec (decDigits n) = n :=
  parseDec_decDigitsAux n n le_rfl

lemma decDigitsAux_lt_ten : ∀ fuel n, ∀ d ∈ decDigitsAux fuel n, d < 10 := by
  intro fuel
  induction fuel with
  | zero => intro n d hd; simp [decDigitsAux] at hd
  | succ fuel ih =>
    intro n d hd
    cases n with
    | zero => simp [decDigitsAux] at hd
    | succ m =>
      simp only [decDigitsAux, List.mem_append, List.mem_singleton] at hd
      rcases hd with hd | hd
      · exact ih _ d hd
      · subst hd; exact Nat.mod_lt _ (by norm_num)

lemma decDigits_lt_ten (n : Nat) : ∀ d ∈ decDigits n, d < 10 :=
  decDigitsAux_lt_ten n n

lemma digitChar_inj_of_lt {a b : Nat} (ha : a < 10) (hb : b < 10)
    (h : digitChar a = digitChar b) : a = b := by
  interval_cases a <;> interval_cases b <;> revert h <;> decide

lemma map_digitChar_inj : ∀ {l₁ l₂ : List Nat}, (∀ d ∈ l₁, d < 10) → (∀ d ∈ l₂, d < 10) →
    l₁.map digitChar = l₂.map digitChar → l₁ = l₂ := by
  intro l₁
  induction l₁ with
  | nil =>
    intro l₂ _ _ h
    cases l₂ with
    | nil => rfl
    | cons b m => simp at h
  | cons a l ih =>
    intro l₂ h₁ h₂ h
    cases l₂ with
    | nil => simp at h
    | cons b m =>
      simp only [List.map_cons, List.cons.injEq] at h
      have hab : a = b :=
        digitChar_inj_of_lt (h₁ a (by simp)) (h₂ b (by simp)) h.1
      have hlm : l = m :=
        ih (fun d hd => h₁ d (by simp [hd])) (fun d hd => h₂ d (by simp [hd])) h.2
      rw [hab, hlm]

lemma natDecimal_injective : Function.Injective natDecimal := by
  intro a b h
  unfold natDecimal at h
  by_cases ha : a = 0 <;> by_cases hb : b = 0
  · rw [ha, hb]
  · rw [if_pos ha, if_neg hb] at h
    have hdata : (String.mk ['0']).data = (String.mk ((decDigits b).map digitChar)).data :=
      congrArg String.data h
    have hlist : ['0'] = (decDigits b).map digitChar := hdata
    have h0 : [(0 : Nat)] = decDigits b := by
      apply map_digitChar_inj (by intro d hd; simp at hd; omega) (decDigits_lt_ten b)
      rw [← hlist]
      rfl
    have : b = 0 := by
      have := parseDec_decDigits b
      rw [← h0] at this
      simpa [parseDec] using this.symm
    exact absurd this hb
  · rw [if_neg ha, if_pos hb] at h
    have hdata : (String.mk ((decDigits a).map digitChar)).data = (String.mk ['0']).data :=
      congrArg String.data h
    have hlist : (decDigits a).map digitChar = ['0'] := hdata
    have h0 : decDigits a = [(0 : Nat)] := by
      apply map_digitChar_inj (decDigits_lt_ten a) (by intro d hd; simp at hd; omega)
      rw [hlist]
      rfl
    have : a = 0 := by
      have := parseDec_decDigits a
      rw [h0] at this
      simpa [parseDec] using this.symm
    exact absurd this ha
  · rw [if_neg ha, if_neg hb] at h
    have hdata : ((decDigits a).map digitChar) = ((decDigits b).map digitChar) :=
      congrArg String.data h
    have := map_digitChar_inj (decDigits_lt_ten a) (decDigits_lt_ten b) hdata
    have := congrArg parseDec this
    rwa [parseDec_decDigits, parseDec_decDigits] at this

lemma botIdOf_injective : Function.Injective botIdOf := by
  intro a b h
  unfold botIdOf at h
  have hdata : ("bot_".data ++ (natDecimal a).data) = ("bot_".data ++ (natDecimal b).data) := by
    have := congrArg String.data h
    simpa [String.data_append] using this
  have := List.append_cancel_left hdata
  exact natDecimal_injective (String.ext this)

lemma createBotGlobal_val1 (st : ServerState) (req : CreateReq) (io : SaveOracle)
    (h1 : req.isPrivate = false) :
    createBotGlobal st req io =
      { state := st, resp := some (.err 400 .privateRequired), writes := [] } := by
  unfold createBotGlobal
  rw [if_pos (by simp [h1])]

lemma createBotGlobal_val2 (st : ServerState) (req : CreateReq) (io : SaveOracle)
    (p1 : req.isPrivate = true) (h2 : jsStrFalsy req.username = true) :
    createBotGlobal st req io =
      { state := st, resp := some (.err 400 .usernameRequired), writes := [] } := by
  unfold createBotGlobal
  rw [if_neg (by simp [p1]), if_pos h2]

lemma createBotGlobal_val3 (st : ServerState) (req : CreateReq) (io : SaveOracle)
    (p1 : req.isPrivate = true) (p2 : jsStrFalsy req.username = false)
    (h3 : st.botCount ≥ maxBots) :
    createBotGlobal st req io =
      { state := st, resp := some (.err 400 .botLimitReached), writes := [] } := by
  unfold createBotGlobal
  rw [if_neg (by simp [p1]), if_neg (by simp [p2]), if_pos h3]

lemma createBotGlobal_val4 (st : ServerState) (req : CreateReq) (io : SaveOracle)
    (p1 : req.isPrivate = true) (p2 : jsStrFalsy req.username = false)
    (p3 : st.botCount < maxBots)
    (h4 : (st.bots.filter fun b => b.isPrivate).length ≥ maxPrivateBots) :
    createBotGlobal st req io =
      { state := st, resp := some (.err 400 .privateBotLimitReached), writes := [] } := by
  unfold createBotGlobal
  rw [if_neg (by simp [p1]), if_neg (by simp [p2]), if_neg (by omega), if_pos h4]

lemma createBotGlobal_val5 (st : ServerState) (req : CreateReq) (io : SaveOracle)
    (p1 : req.isPrivate = true) (p2 : jsStrFalsy req.username = false)
    (p3 : st.botCount < maxBots)
    (p4 : (st.bots.filter fun b => b.isPrivate).length < maxPrivateBots)
    (h5 : st.userInfo.points < 250) :
    createBotGlobal st req io =
      { state := st, resp := some (.err 400 .insufficientPoints), writes := [] } := by
  unfold createBotGlobal
  rw [if_neg (by simp [p1]), if_neg (by simp [p2]), if_neg (by omega), if_neg (by omega),
    if_pos h5]

lemma createBotGlobal_pointsSaveFail (st : ServerState) (req : CreateReq)
    (h : PassesValidationGlobal st req) (b c : Bool) :
    createBotGlobal st req ⟨false, b, c⟩ =
      { state := st, resp := some (.err 500 .pointsSaveFailed), writes := [.saveUser] } := by
  obtain ⟨p1, p2, p3, p4, p5⟩ := h
  unfold createBotGlobal
  rw [if_neg (by simp [p1]), if_neg (by simp [p2]), if_neg (by omega), if_neg (by omega),
    if_neg (by omega)]
  rfl

lemma createBotGlobal_success (st : ServerState) (req : CreateReq)
    (h : PassesValidationGlobal st req) (c : Bool) :
    createBotGlobal st req ⟨true, true, c⟩ =
      { state := { bots := st.bots ++ [mkBotGlobal req]
                   botCount := st.botCount + 1
                   userInfo := { st.userInfo with points := st.userInfo.points - 250 } }
        resp := some (.created (mkBotGlobal req))
        writes := [.saveUser, .saveBots] } := by
  obtain ⟨p1, p2, p3, p4, p5⟩ := h
  unfold createBotGlobal
  rw [if_neg (by simp [p1]), if_neg (by simp [p2]), if_neg (by omega), if_neg (by omega),
    if_neg (by omega)]
  rfl

lemma createBotGlobal_botsSaveFail (st : ServerState) (req : CreateReq)
    (h : PassesValidationGlobal st req) (c : Bool) :
    createBotGlobal st req ⟨true, false, c⟩ =
      { state := st
        resp := if c then some (.err 500 .botSaveFailed) else none
        writes := [.saveUser, .saveBots, .saveUser] } := by
  obtain ⟨p1, p2, p3, p4, p5⟩ := h
  unfold createBotGlobal
  rw [if_neg (by simp [p1]), if_neg (by simp [p2]), if_neg (by omega), if_neg (by omega),
    if_neg (by omega)]
  cases c <;> simp [List.dropLast_concat]

lemma createBotPerUser_val1 (st : ServerState) (req : CreateReq) (io : SaveOracle)
    (h1 : req.isPrivate = false) :
    createBotPerUser st req io =
      { state := st, resp := some (.err 400 .privateRequired), writes := [] } := by
  unfold createBotPerUser
  rw [if_pos (by simp [h1])]

lemma createBotPerUser_val2 (st : ServerState) (req : CreateReq) (io : SaveOracle)
    (p1 : req.isPrivate = true) (h2 : jsStrFalsy req.username = true) :
    createBotPerUser st req io =
      { state := st, resp := some (.err 400 .usernameRequired), writes := [] } := by
  unfold createBotPerUser
  rw [if_neg (by simp [p1]), if_pos h2]

lemma createBotPerUser_val3 (st : ServerState) (req : CreateReq) (io : SaveOracle)
    (p1 : req.isPrivate = true) (p2 : jsStrFalsy req.username = false)
    (h3 : st.botCount ≥ maxBots) :
    createBotPerUser st req io =
      { state := st, resp := some (.err 400 .botLimitReached), writes := [] } := by
  unfold createBotPerUser
  rw [if_neg (by simp [p1]), if_neg (by simp [p2]), if_pos h3]

lemma createBotPerUser_val4 (st : ServerState) (req : CreateReq) (io : SaveOracle)
    (p1 : req.isPrivate = true) (p2 : jsStrFalsy req.username = false)
    (p3 : st.botCount < maxBots)
    (h4 : (st.bots.filter fun b => b.isPrivate && b.userId == req.userId).length ≥ maxPrivateBots) :
    createBotPerUser st req io =
      { state := st, resp := some (.err 400 .privateBotLimitReached), writes := [] } := by
  unfold createBotPerUser
  rw [if_neg (by simp [p1]), if_neg (by simp [p2]), if_neg (by omega), if_pos h4]

lemma createBotPerUser_val5 (st : ServerState) (req : CreateReq) (io : SaveOracle)
    (p1 : req.isPrivate = true) (p2 : jsStrFalsy req.username = false)
    (p3 : st.botCount < maxBots)
    (p4 : (st.bots.filter fun b => b.isPrivate && b.userId == req.userId).length < maxPrivateBots)
    (h5 : st.userInfo.points < 250) :
    createBotPerUser st req io =
      { state := st, resp := some (.err 400 .insufficientPoints), writes := [] } := by
  unfold createBotPerUser
  rw [if_neg (by simp [p1]), if_neg (by simp [p2]), if_neg (by omega), if_neg (by omega),
    if_pos h5]

lemma createBotPerUser_pointsSaveFail (st : ServerState) (req : CreateReq)
    (h : PassesValidationPerUser st req) (b c : Bool) :
    createBotPerUser st req ⟨false, b, c⟩ =
      { state := st, resp := some (.err 500 .pointsSaveFailed), writes := [.saveUser] } := by
  obtain ⟨p1, p2, p3, p4, p5⟩ := h
  unfold createBotPerUser
  rw [if_neg (by simp [p1]), if_neg (by simp [p2]), if_neg (by omega), if_neg (by omega),
    if_neg (by omega)]
  rfl

lemma createBotPerUser_success (st : ServerState) (req : CreateReq)
    (h : PassesValidationPerUser st req) (c : Bool) :
    createBotPerUser st req ⟨true, true, c⟩ =
      { state := { bots := st.bots ++ [mkBotPerUser req]
                   botCount := st.botCount + 1
                   userInfo := { st.userInfo with points := st.userInfo.points - 250 } }
        resp := some (.created (mkBotPerUser req))
        writes := [.saveUser, .saveBots] } := by
  obtain ⟨p1, p2, p3, p4, p5⟩ := h
  unfold createBotPerUser
  rw [if_neg (by simp [p1]), if_neg (by simp [p2]), if_neg (by omega), if_neg (by omega),
    if_neg (by omega)]
  rfl

lemma createBotPerUser_botsSaveFail (st : ServerState) (req : CreateReq)
    (h : PassesValidationPerUser st req) (c : Bool) :
    createBotPerUser st req ⟨true, false, c⟩ =
      { state := st
        resp := if c then some (.err 500 .botSaveFailed) else none
        writes := [.saveUser, .saveBots, .saveUser] } := by
  obtain ⟨p1, p2, p3, p4, p5⟩ := h
  unfold createBotPerUser
  rw [if_neg (by simp [p1]), if_neg (by simp [p2]), if_neg (by omega), if_neg (by omega),
    if_neg (by omega)]
  cases c <;> simp [List.dropLast_concat]

lemma verifyBot_notFound (st : ServerState) (i : String) (s : Bool)
    (h : st.bots.find? (fun b => b.id == i) = none) :
    verifyBot st i s = { state := st, resp := some (.err 404 .botNotFound), writes := [] } := by
  unfold verifyBot
  rw [h]

lemma verifyBot_found (st : ServerState) (i : String) (b : BotRecord) (s : Bool)
    (h : st.bots.find? (fun x => x.id == i) = some b) :
    verifyBot st i s =
      { state := { st with bots := setVerifiedFirst st.bots i }
        resp := if s then some (.verifiedMsg b.username) else some (.err 500 .verifySaveFailed)
        writes := [.saveBots] } := by
  unfold verifyBot
  rw [h]
  cases s <;> rfl

lemma find?_setVerifiedFirst (i : String) : ∀ (l : List BotRecord) (b : BotRecord),
    l.find? (fun x => x.id == i) = some b →
    (setVerifiedFirst l i).find? (fun x => x.id == i) = some { b with status := .verified } := by
  intro l
  induction l with
  | nil => intro b h; simp at h
  | cons a rest ih =>
    intro b h
    by_cases ha : a.id = i
    · rw [List.find?_cons_of_pos _ (by simp [ha])] at h
      cases h
      unfold setVerifiedFirst
      rw [if_pos (by simp [ha])]
      exact List.find?_cons_of_pos _ (by simp [ha])
    · rw [List.find?_cons_of_neg _ (by simp [ha])] at h
      unfold setVerifiedFirst
      rw [if_neg (by simp [ha])]
      rw [List.find?_cons_of_neg _ (by simp [ha])]
      exact ih b h

lemma setVerifiedFirst_idem (i : String) : ∀ l : List BotRecord,
    setVerifiedFirst (setVerifiedFirst l i) i = setVerifiedFirst l i := by
  intro l
  induction l with
  | nil => rfl
  | cons a rest ih =>
    by_cases ha : a.id = i
    · have h1 : setVerifiedFirst (a :: rest) i = { a with status := .verified } :: rest := by
        simp only [setVerifiedFirst]
        rw [if_pos (by simp [ha])]
      rw [h1]
      simp only [setVerifiedFirst]
      rw [if_pos (by simp [ha])]
    · have h1 : setVerifiedFirst (a :: rest) i = a :: setVerifiedFirst rest i := by
        simp only [setVerifiedFirst]
        rw [if_neg (by simp [ha])]
      rw [h1]
      simp only [setVerifiedFirst]
      rw [if_neg (by simp [ha]), ih]

lemma stepGlobal_bots (st : ServerState) (ev : CreateEv) :
    (stepGlobal st ev).bots = st.bots ∨
      (stepGlobal st ev).bots = st.bots ++ [mkBotGlobal ev.req] := by
  simp only [stepGlobal, createBotGlobal]
  split_ifs <;> simp [List.dropLast_concat]

lemma stepPerUser_bots (st : ServerState) (ev : CreateEv) :
    (stepPerUser st ev).bots = st.bots ∨
      (stepPerUser st ev).bots = st.bots ++ [mkBotPerUser ev.req] := by
  simp only [stepPerUser, createBotPerUser]
  split_ifs <;> simp [List.dropLast_concat]

lemma runGlobal_ids_sublist : ∀ (evs : List CreateEv) (st : ServerState),
    List.Sublist ((runGlobal st evs).bots.map fun b => b.id)
      ((st.bots.map fun b => b.id) ++ (evs.map fun e => botIdOf e.req.now)) := by
  intro evs
  induction evs with
  | nil => intro st; exact List.sublist_append_left _ _
  | cons e rest ih =>
    intro st
    have hrun : runGlobal st (e :: rest) = runGlobal (stepGlobal st e) rest := rfl
    rw [hrun, List.map_cons]
    rcases stepGlobal_bots st e with hk | ha
    · have h2 := ih (stepGlobal st e)
      rw [hk] at h2
      exact h2.trans (List.Sublist.append_left (List.sublist_cons_self _ _) _)
    · have h2 := ih (stepGlobal st e)
      rw [ha] at h2
      have heq : ((st.bots ++ [mkBotGlobal e.req]).map fun b => b.id) ++
            (rest.map fun e => botIdOf e.req.now) =
          (st.bots.map fun b => b.id) ++
            (botIdOf e.req.now :: rest.map fun e => botIdOf e.req.now) := by
        simp [mkBotGlobal]
      rwa [heq] at h2

lemma runPerUser_ids_sublist : ∀ (evs : List CreateEv) (st : ServerState),
    List.Sublist ((runPerUser st evs).bots.map fun b => b.id)
      ((st.bots.map fun b => b.id) ++ (evs.map fun e => botIdOf e.req.now)) := by
  intro evs
  induction evs with
  | nil => intro st; exact List.sublist_append_left _ _
  | cons e rest ih =>
    intro st
    have hrun : runPerUser st (e :: rest) = runPerUser (stepPerUser st e) rest := rfl
    rw [hrun, List.map_cons]
    rcases stepPerUser_bots st e with hk | ha
    · have h2 := ih (stepPerUser st e)
      rw [hk] at h2
      exact h2.trans (List.Sublist.append_left (List.sublist_cons_self _ _) _)
    · have h2 := ih (stepPerUser st e)
      rw [ha] at h2
      have heq : ((st.bots ++ [mkBotPerUser e.req]).map fun b => b.id) ++
            (rest.map fun e => botIdOf e.req.now) =
          (st.bots.map fun b => b.id) ++
            (botIdOf e.req.now :: rest.map fun e => botIdOf e.req.now) := by
        simp [mkBotPerUser]
      rwa [heq] at h2

lemma createBotGlobal_resp500_state (st : ServerState) (req : CreateReq) (io : SaveOracle)
    (e : ApiError) (h : (createBotGlobal st req io).resp = some (.err 500 e)) :
    (createBotGlobal st req io).state = st := by
  simp only [createBotGlobal] at h ⊢
  split_ifs at h ⊢ <;> simp_all [List.dropLast_concat]

lemma createBotPerUser_resp500_state (st : ServerState) (req : CreateReq) (io : SaveOracle)
    (e : ApiError) (h : (createBotPerUser st req io).resp = some (.err 500 e)) :
    (createBotPerUser st req io).state = st := by
  simp only [createBotPerUser] at h ⊢
  split_ifs at h ⊢ <;> simp_all [List.dropLast_concat]

lemma createBotGlobal_count (st : ServerState) (req : CreateReq) (io : SaveOracle)
    (h : st.botCount = st.bots.length) :
    (createBotGlobal st req io).state.botCount =
      (createBotGlobal st req io).state.bots.length := by
  simp only [createBotGlobal]
  split_ifs <;> simp [List.dropLast_concat, h]

lemma createBotPerUser_count (st : ServerState) (req : CreateReq) (io : SaveOracle)
    (h : st.botCount = st.bots.length) :
    (createBotPerUser st req io).state.botCount =
      (createBotPerUser st req io).state.bots.length := by
  simp only [createBotPerUser]
  split_ifs <;> simp [List.dropLast_concat, h]

/-- C1, counterexample to the claim as stated: when the bot-list write fails
after a successful user-info write and the compensating user-info write also
fails, the handler produces no HTTP response at all — the rejected
`await saveUserData()` inside the catch block aborts the route callback
before the log line and the 500 response run — so the compensating-write
failure is not logged and surfaced as part of the same error response. -/
theorem C1_counterexample_no_error_response :
    (createBotPerUser
        { bots := [], botCount := 0, userInfo := { points := 300, userId := some "guest" } }
        { username := some "alpha", isPrivate := true, userId := some "alice", now := 7 }
        { userSaveOk := true, botsSaveOk := false, compSaveOk := false }).resp = none := by
  decide

/-- C1 (amended): in both createBot variants, if the bot-list write fails
after the user-info write succeeded, the final in-memory state equals the
pre-request state exactly (record removed, count decremented, points
restored), and the user-info document re-persist is attempted as the third
write; if that compensating write succeeds the request fails with HTTP 500
`botSaveFailed`, and if it fails no response is produced at all. -/
theorem C1_bot_save_failure_rollback (st : ServerState) (req : CreateReq) (c : Bool) :
    (PassesValidationPerUser st req →
      createBotPerUser st req ⟨true, false, c⟩ =
        { state := st
          resp := if c then some (.err 500 .botSaveFailed) else none
          writes := [.saveUser, .saveBots, .saveUser] }) ∧
    (PassesValidationGlobal st req →
      createBotGlobal st req ⟨true, false, c⟩ =
        { state := st
          resp := if c then some (.err 500 .botSaveFailed) else none
          writes := [.saveUser, .saveBots, .saveUser] }) :=
  ⟨fun h => createBotPerUser_botsSaveFail st req h c,
   fun h => createBotGlobal_botsSaveFail st req h c⟩

/-- C1 witness: concrete bot-save failure with a succeeding compensating
write: full rollback and a 500 response. -/
theorem C1_bot_save_failure_rollback_witness :
    createBotPerUser
        { bots := [], botCount := 0, userInfo := { points := 400, userId := some "guest" } }
        { username := some "w1", isPrivate := true, userId := none, now := 11 }
        { userSaveOk := true, botsSaveOk := false, compSaveOk := true } =
      { state := { bots := [], botCount := 0, userInfo := { points := 400, userId := some "guest" } }
        resp := some (.err 500 .botSaveFailed)
        writes := [.saveUser, .saveBots, .saveUser] } :=
  (C1_bot_save_failure_rollback
    { bots := [], botCount := 0, userInfo := { points := 400, userId := some "guest" } }
    { username := some "w1", isPrivate := true, userId := none, now := 11 } true).1 (by decide)

/-- C2, counterexample to the claim as stated: `verifyBot` returns a
persistence error (HTTP 500) while the status mutation it applied in
memory is left in place — the record is still `Verified` in the final
state, not rolled back. -/
theorem C2_counterexample_verify_not_rolled_back :
    (verifyBot
        { bots := [{ id := "bot_3", username := "alpha", status := .waitingForVerification,
                     createdAt := 3, verificationDeadline := 4, isPrivate := true,
                     userId := some "guest" }],
          botCount := 1, userInfo := { points := 0, userId := some "guest" } }
        "bot_3" false).resp = some (.err 500 .verifySaveFailed) ∧
    ((verifyBot
        { bots := [{ id := "bot_3", username := "alpha", status := .waitingForVerification,
                     createdAt := 3, verificationDeadline := 4, isPrivate := true,
                     userId := some "guest" }],
          botCount := 1, userInfo := { points := 0, userId := some "guest" } }
        "bot_3" false).state.bots.map fun b => b.status) = [.verified] := by
  exact ⟨by decide, by decide⟩

/-- C2 (amended): both createBot variants fully compensate — whenever they
return a persistence error (HTTP 500), the final state equals the
pre-request state — but `verifyBot` does not: on a failed bot-list write it
returns HTTP 500 with the looked-up record left `Verified` in memory. -/
theorem C2_compensation_per_operation (st : ServerState) (req : CreateReq) (io : SaveOracle)
    (i : String) (e : ApiError) (b : BotRecord) :
    ((createBotPerUser st req io).resp = some (.err 500 e) →
      (createBotPerUser st req io).state = st) ∧
    ((createBotGlobal st req io).resp = some (.err 500 e) →
      (createBotGlobal st req io).state = st) ∧
    (st.bots.find? (fun x => x.id == i) = some b →
      (verifyBot st i false).resp = some (.err 500 .verifySaveFailed) ∧
      (verifyBot st i false).state = { st with bots := setVerifiedFirst st.bots i }) :=
  ⟨createBotPerUser_resp500_state st req io e,
   createBotGlobal_resp500_state st req io e,
   fun h => by rw [verifyBot_found st i b false h]; exact ⟨rfl, rfl⟩⟩

/-- C2 witness: a concrete points-save failure is fully compensated, and a
concrete verify-save failure returns 500. -/
theorem C2_compensation_per_operation_witness :
    (createBotPerUser
        { bots := [], botCount := 0, userInfo := { points := 260, userId := none } }
        { username := some "w2", isPrivate := true, userId := none, now := 3 }
        { userSaveOk := false, botsSaveOk := true, compSaveOk := true }).state =
      { bots := [], botCount := 0, userInfo := { points := 260, userId := none } } ∧
    (verifyBot
        { bots := [{ id := "bot_5", username := "w3", status := .waitingForVerification,
                     createdAt := 5, verificationDeadline := 6, isPrivate := true,
                     userId := some "guest" }],
          botCount := 1, userInfo := { points := 0, userId := some "guest" } }
        "bot_5" false).resp = some (.err 500 .verifySaveFailed) := by
  refine ⟨?_, ?_⟩
  · exact (C2_compensation_per_operation
      { bots := [], botCount := 0, userInfo := { points := 260, userId := none } }
      { username := some "w2", isPrivate := true, userId := none, now := 3 }
      { userSaveOk := false, botsSaveOk := true, compSaveOk := true }
      "x" .pointsSaveFailed
      { id := "x", username := "x", status := .waitingForVerification, createdAt := 0,
        verificationDeadline := 0, isPrivate := true, userId := none }).2.1 (by decide)
  · exact ((C2_compensation_per_operation
      { bots := [{ id := "bot_5", username := "w3", status := .waitingForVerification,
                   createdAt := 5, verificationDeadline := 6, isPrivate := true,
                   userId := some "guest" }],
        botCount := 1, userInfo := { points := 0, userId := some "guest" } }
      { username := some "w3", isPrivate := true, userId := none, now := 5 }
      { userSaveOk := true, botsSaveOk := true, compSaveOk := true }
      "bot_5" .verifySaveFailed
      { id := "bot_5", username := "w3", status := .waitingForVerification, createdAt := 5,
        verificationDeadline := 6, isPrivate := true, userId := some "guest" }).2.2
      (by decide)).1

/-- C3: evaluation at the failing input. Starting from an empty store with
1500 points, six creation requests with an absent `userId` all succeed,
leaving six private records owned by `"guest"` — the per-user quota check
compares stored `userId` values against the raw (undefaulted) request
`userId`, so requests without a `userId` are never blocked by the quota. -/
theorem C3_guest_quota_bypass_eval :
    ((runPerUser
        { bots := [], botCount := 0, userInfo := { points := 1500, userId := some "guest" } }
        [{ req := { username := some "a", isPrivate := true, userId := none, now := 1 },
           io := { userSaveOk := true, botsSaveOk := true, compSaveOk := true } },
         { req := { username := some "a", isPrivate := true, userId := none, now := 2 },
           io := { userSaveOk := true, botsSaveOk := true, compSaveOk := true } },
         { req := { username := some "a", isPrivate := true, userId := none, now := 3 },
           io := { userSaveOk := true, botsSaveOk := true, compSaveOk := true } },
         { req := { username := some "a", isPrivate := true, userId := none, now := 4 },
           io := { userSaveOk := true, botsSaveOk := true, compSaveOk := true } },
         { req := { username := some "a", isPrivate := true, userId := none, now := 5 },
           io := { userSaveOk := true, botsSaveOk := true, compSaveOk := true } },
         { req := { username := some "a", isPrivate := true, userId := none, now := 6 },
           io := { userSaveOk := true, botsSaveOk := true, compSaveOk := true } }]).bots.filter
        fun b => b.isPrivate && b.userId == some "guest").length = 6 := by
  decide

/-- C4: on the success path (all five validations pass, both writes
succeed), both variants append exactly one new record — with status
`WaitingForVerification` and `isPrivate = true` — increment the count, and
leave `points = p - 250`. -/
theorem C4_success_creates_and_deducts (st : ServerState) (req : CreateReq) (c : Bool) :
    (PassesValidationGlobal st req →
      createBotGlobal st req ⟨true, true, c⟩ =
        { state := { bots := st.bots ++ [mkBotGlobal req]
                     botCount := st.botCount + 1
                     userInfo := { st.userInfo with points := st.userInfo.points - 250 } }
          resp := some (.created (mkBotGlobal req))
          writes := [.saveUser, .saveBots] }) ∧
    (PassesValidationPerUser st req →
      createBotPerUser st req ⟨true, true, c⟩ =
        { state := { bots := st.bots ++ [mkBotPerUser req]
                     botCount := st.botCount + 1
                     userInfo := { st.userInfo with points := st.userInfo.points - 250 } }
          resp := some (.created (mkBotPerUser req))
          writes := [.saveUser, .saveBots] }) ∧
    (mkBotGlobal req).status = .waitingForVerification ∧
    (mkBotGlobal req).isPrivate = true ∧
    (mkBotPerUser req).status = .waitingForVerification ∧
    (mkBotPerUser req).isPrivate = true :=
  ⟨fun h => createBotGlobal_success st req h c,
   fun h => createBotPerUser_success st req h c, rfl, rfl, rfl, rfl⟩

/-- C4 witness: with 300 points a successful creation leaves 50 points and
exactly one appended record. -/
theorem C4_success_creates_and_deducts_witness :
    (createBotGlobal
        { bots := [], botCount := 0, userInfo := { points := 300, userId := none } }
        { username := some "w4", isPrivate := true, userId := none, now := 13 }
        { userSaveOk := true, botsSaveOk := true, compSaveOk := true }).state.userInfo.points = 50 ∧
    (createBotGlobal
        { bots := [], botCount := 0, userInfo := { points := 300, userId := none } }
        { username := some "w4", isPrivate := true, userId := none, now := 13 }
        { userSaveOk := true, botsSaveOk := true, compSaveOk := true }).state.bots.length = 1 := by
  have h := (C4_success_creates_and_deducts
    { bots := [], botCount := 0, userInfo := { points := 300, userId := none } }
    { username := some "w4", isPrivate := true, userId := none, now := 13 } true).1 (by decide)
  rw [h]
  exact ⟨by decide, by decide⟩

/-- C5: in both variants, if the step-6 user-info write fails, the points
are restored exactly (the final state equals the pre-request state), no bot
record is appended, the only attempted disk write is the failed user-info
write (none is attempted for the restore), and the request fails with
HTTP 500 `pointsSaveFailed`. -/
theorem C5_points_save_failure_rollback (st : ServerState) (req : CreateReq) (b c : Bool) :
    (PassesValidationGlobal st req →
      createBotGlobal st req ⟨false, b, c⟩ =
        { state := st, resp := some (.err 500 .pointsSaveFailed), writes := [.saveUser] }) ∧
    (PassesValidationPerUser st req →
      createBotPerUser st req ⟨false, b, c⟩ =
        { state := st, resp := some (.err 500 .pointsSaveFailed), writes := [.saveUser] }) :=
  ⟨fun h => createBotGlobal_pointsSaveFail st req h b c,
   fun h => createBotPerUser_pointsSaveFail st req h b c⟩

/-- C5 witness: concrete points-save failure leaves the state untouched and
attempts exactly one write. -/
theorem C5_points_save_failure_rollback_witness :
    createBotGlobal
        { bots := [], botCount := 0, userInfo := { points := 900, userId := none } }
        { username := some "w5", isPrivate := true, userId := none, now := 17 }
        { userSaveOk := false, botsSaveOk := true, compSaveOk := true } =
      { state := { bots := [], botCount := 0, userInfo := { points := 900, userId := none } }
        resp := some (.err 500 .pointsSaveFailed)
        writes := [.saveUser] } :=
  (C5_points_save_failure_rollback
    { bots := [], botCount := 0, userInfo := { points := 900, userId := none } }
    { username := some "w5", isPrivate := true, userId := none, now := 17 } true true).1 (by decide)

/-- C6: the five validation checks run strictly in the order private flag,
username, global capacity, private-bot quota, balance; the error returned
is the error of the earliest failing check, and every validation failure leaves
the state exactly unchanged and attempts no disk write, in both variants. -/
theorem C6_validation_order_and_purity (st : ServerState) (req : CreateReq) (io : SaveOracle) :
    (req.isPrivate = false →
      createBotGlobal st req io =
        { state := st, resp := some (.err 400 .privateRequired), writes := [] } ∧
      createBotPerUser st req io =
        { state := st, resp := some (.err 400 .privateRequired), writes := [] }) ∧
    (req.isPrivate = true → jsStrFalsy req.username = true →
      createBotGlobal st req io =
        { state := st, resp := some (.err 400 .usernameRequired), writes := [] } ∧
      createBotPerUser st req io =
        { state := st, resp := some (.err 400 .usernameRequired), writes := [] }) ∧
    (req.isPrivate = true → jsStrFalsy req.username = false → st.botCount ≥ maxBots →
      createBotGlobal st req io =
        { state := st, resp := some (.err 400 .botLimitReached), writes := [] } ∧
      createBotPerUser st req io =
        { state := st, resp := some (.err 400 .botLimitReached), writes := [] }) ∧
    (req.isPrivate = true → jsStrFalsy req.username = false → st.botCount < maxBots →
      ((st.bots.filter fun b => b.isPrivate).length ≥ maxPrivateBots →
        createBotGlobal st req io =
          { state := st, resp := some (.err 400 .privateBotLimitReached), writes := [] }) ∧
      ((st.bots.filter fun b => b.isPrivate && b.userId == req.userId).length ≥ maxPrivateBots →
        createBotPerUser st req io =
          { state := st, resp := some (.err 400 .privateBotLimitReached), writes := [] })) ∧
    (req.isPrivate = true → jsStrFalsy req.username = false → st.botCount < maxBots →
      st.userInfo.points < 250 →
      ((st.bots.filter fun b => b.isPrivate).length < maxPrivateBots →
        createBotGlobal st req io =
          { state := st, resp := some (.err 400 .insufficientPoints), writes := [] }) ∧
      ((st.bots.filter fun b => b.isPrivate && b.userId == req.userId).length < maxPrivateBots →
        createBotPerUser st req io =
          { state := st, resp := some (.err 400 .insufficientPoints), writes := [] })) :=
  ⟨fun h1 => ⟨createBotGlobal_val1 st req io h1, createBotPerUser_val1 st req io h1⟩,
   fun p1 h2 => ⟨createBotGlobal_val2 st req io p1 h2, createBotPerUser_val2 st req io p1 h2⟩,
   fun p1 p2 h3 => ⟨createBotGlobal_val3 st req io p1 p2 h3,
     createBotPerUser_val3 st req io p1 p2 h3⟩,
   fun p1 p2 p3 => ⟨fun h4 => createBotGlobal_val4 st req io p1 p2 p3 h4,
     fun h4 => createBotPerUser_val4 st req io p1 p2 p3 h4⟩,
   fun p1 p2 p3 h5 => ⟨fun p4 => createBotGlobal_val5 st req io p1 p2 p3 p4 h5,
     fun p4 => createBotPerUser_val5 st req io p1 p2 p3 p4 h5⟩⟩

/-- C6 witness: a request without the private flag fails with the
private-flag error and no mutation. -/
theorem C6_validation_order_and_purity_witness :
    createBotGlobal
        { bots := [], botCount := 0, userInfo := { points := 300, userId := none } }
        { username := some "w6", isPrivate := false, userId := none, now := 19 }
        { userSaveOk := true, botsSaveOk := true, compSaveOk := true } =
      { state := { bots := [], botCount := 0, userInfo := { points := 300, userId := none } }
        resp := some (.err 400 .privateRequired)
        writes := [] } :=
  ((C6_validation_order_and_purity
    { bots := [], botCount := 0, userInfo := { points := 300, userId := none } }
    { username := some "w6", isPrivate := false, userId := none, now := 19 }
    { userSaveOk := true, botsSaveOk := true, compSaveOk := true }).1 rfl).1

/-- C7, counterexample to the claim as stated: two successful creations in
the same millisecond (`Date.now() = 42` both times) generate the same id
`"bot_42"` twice, so the stored ids are not pairwise distinct. -/
theorem C7_counterexample_duplicate_ids :
    ((runGlobal
        { bots := [], botCount := 0, userInfo := { points := 500, userId := none } }
        [{ req := { username := some "a", isPrivate := true, userId := none, now := 42 },
           io := { userSaveOk := true, botsSaveOk := true, compSaveOk := true } },
         { req := { username := some "b", isPrivate := true, userId := none, now := 42 },
           io := { userSaveOk := true, botsSaveOk := true, compSaveOk := true } }]).bots.map
        fun b => b.id) = ["bot_42", "bot_42"] ∧
    ¬ (((runGlobal
        { bots := [], botCount := 0, userInfo := { points := 500, userId := none } }
        [{ req := { username := some "a", isPrivate := true, userId := none, now := 42 },
           io := { userSaveOk := true, botsSaveOk := true, compSaveOk := true } },
         { req := { username := some "b", isPrivate := true, userId := none, now := 42 },
           io := { userSaveOk := true, botsSaveOk := true, compSaveOk := true } }]).bots.map
        fun b => b.id).Pairwise fun x y => x ≠ y) := by
  exact ⟨by decide, by decide⟩

/-- C7 (amended): ids are pairwise distinct provided the `Date.now()`
values observed by the requests are pairwise distinct — the id is derived
solely from the timestamp, so equal-millisecond creations collide.  Holds
for both variants, starting from an empty bot list. -/
theorem C7_ids_distinct_when_timestamps_distinct (st : ServerState) (evs : List CreateEv)
    (h0 : st.bots = []) (hd : evs.Pairwise fun a b => a.req.now ≠ b.req.now) :
    (((runGlobal st evs).bots.map fun b => b.id).Pairwise fun x y => x ≠ y) ∧
    (((runPerUser st evs).bots.map fun b => b.id).Pairwise fun x y => x ≠ y) := by
  have hmap : (evs.map fun e => botIdOf e.req.now).Pairwise fun x y => x ≠ y :=
    hd.map _ (fun a b hne heq => hne (botIdOf_injective heq))
  constructor
  · have hsub := runGlobal_ids_sublist evs st
    rw [h0] at hsub
    exact List.Pairwise.sublist (by simpa using hsub) hmap
  · have hsub := runPerUser_ids_sublist evs st
    rw [h0] at hsub
    exact List.Pairwise.sublist (by simpa using hsub) hmap

/-- C7 witness: two creations at distinct timestamps yield distinct ids. -/
theorem C7_ids_distinct_witness :
    (((runGlobal
        { bots := [], botCount := 0, userInfo := { points := 500, userId := none } }
        [{ req := { username := some "c", isPrivate := true, userId := none, now := 1 },
           io := { userSaveOk := true, botsSaveOk := true, compSaveOk := true } },
         { req := { username := some "d", isPrivate := true, userId := none, now := 2 },
           io := { userSaveOk := true, botsSaveOk := true, compSaveOk := true } }]).bots.map
        fun b => b.id).Pairwise fun x y => x ≠ y) ∧
    (((runPerUser
        { bots := [], botCount := 0, userInfo := { points := 500, userId := none } }
        [{ req := { username := some "c", isPrivate := true, userId := none, now := 1 },
           io := { userSaveOk := true, botsSaveOk := true, compSaveOk := true } },
         { req := { username := some "d", isPrivate := true, userId := none, now := 2 },
           io := { userSaveOk := true, botsSaveOk := true, compSaveOk := true } }]).bots.map
        fun b => b.id).Pairwise fun x y => x ≠ y) :=
  C7_ids_distinct_when_timestamps_distinct
    { bots := [], botCount := 0, userInfo := { points := 500, userId := none } }
    [{ req := { username := some "c", isPrivate := true, userId := none, now := 1 },
       io := { userSaveOk := true, botsSaveOk := true, compSaveOk := true } },
     { req := { username := some "d", isPrivate := true, userId := none, now := 2 },
       io := { userSaveOk := true, botsSaveOk := true, compSaveOk := true } }]
    rfl (by decide)

/-- C8, counterexample to the claim as stated: in the minimal `loadData`
variant, a corrupted bot-list document with a valid user-info document
resets the in-memory bot list and loads user info correctly, but performs
no disk write at all — the on-disk bot document is not overwritten with
the default. -/
theorem C8_counterexample_plain_load_no_disk_write :
    loadDataPlain
        { bots := [], botCount := 0, userInfo := { points := 0, userId := none } }
        none (some { points := some 120, userId := none }) =
      ({ bots := [], botCount := 0, userInfo := { points := 120, userId := none } }, []) := by
  decide

/-- C8 (amended): in every `loadData` variant a failure of one document
does not affect the other: a corrupt bot document yields an empty bot list
while user info still loads with its coercions, and a corrupt user document
yields default user info while the bot list still loads; the two
self-healing variants additionally overwrite the failed document on disk
with its default, while the minimal variant performs no disk write. -/
theorem C8_load_failure_isolation (prev : ServerState) (bs : List BotRecord) (raw : RawUser) :
    (loadDataPerUser none (some raw) =
      ({ bots := [], botCount := 0,
         userInfo := { points := raw.points.getD 0,
                       userId := some (jsOrDefault raw.userId "guest") } },
       [WriteOp.saveBots])) ∧
    (loadDataPerUser (some bs) none =
      ({ bots := bs, botCount := bs.length,
         userInfo := { points := 0, userId := some "guest" } },
       [WriteOp.saveUser])) ∧
    (loadDataHealGlobal none (some raw) =
      ({ bots := [], botCount := 0,
         userInfo := { points := raw.points.getD 0, userId := raw.userId } },
       [WriteOp.saveBots])) ∧
    (loadDataHealGlobal (some bs) none =
      ({ bots := bs, botCount := bs.length, userInfo := { points := 0, userId := none } },
       [WriteOp.saveUser])) ∧
    (loadDataPlain prev none (some raw) =
      ({ bots := [], botCount := 0,
         userInfo := { points := raw.points.getD 0, userId := raw.userId } }, [])) ∧
    (loadDataPlain prev (some bs) none =
      ({ bots := bs, botCount := bs.length,
         userInfo := { prev.userInfo with points := 0 } }, [])) :=
  ⟨rfl, rfl, rfl, rfl, rfl, rfl⟩

/-- C9: `verifyBot` on an absent id returns 404 with the state unchanged;
on a present id it sets the status of that record to `Verified`, attempts the
bot-list write, and returns success, or HTTP 500 if the write fails; a
repeated verify of the same id succeeds again and leaves the record
`Verified` with the state unchanged. -/
theorem C9_verify_behavior (st : ServerState) (i : String) :
    (∀ s : Bool, st.bots.find? (fun b => b.id == i) = none →
      verifyBot st i s = { state := st, resp := some (.err 404 .botNotFound), writes := [] }) ∧
    (∀ b : BotRecord, st.bots.find? (fun x => x.id == i) = some b →
      verifyBot st i true =
        { state := { st with bots := setVerifiedFirst st.bots i }
          resp := some (.verifiedMsg b.username)
          writes := [.saveBots] } ∧
      (setVerifiedFirst st.bots i).find? (fun x => x.id == i) =
        some { b with status := .verified } ∧
      verifyBot st i false =
        { state := { st with bots := setVerifiedFirst st.bots i }
          resp := some (.err 500 .verifySaveFailed)
          writes := [.saveBots] } ∧
      verifyBot { st with bots := setVerifiedFirst st.bots i } i true =
        { state := { st with bots := setVerifiedFirst st.bots i }
          resp := some (.verifiedMsg b.username)
          writes := [.saveBots] }) := by
  constructor
  · intro s h
    exact verifyBot_notFound st i s h
  · intro b h
    have hf := find?_setVerifiedFirst i st.bots b h
    refine ⟨verifyBot_found st i b true h, hf, verifyBot_found st i b false h, ?_⟩
    have h2 := verifyBot_found { st with bots := setVerifiedFirst st.bots i } i
      { b with status := .verified } true hf
    rw [h2]
    rw [setVerifiedFirst_idem i st.bots]
    rfl

/-- C9 witness: concrete 404 on an unknown id and concrete successful
verification flipping the status. -/
theorem C9_verify_behavior_witness :
    verifyBot
        { bots := [{ id := "bot_9", username := "w9", status := .waitingForVerification,
                     createdAt := 9, verificationDeadline := 10, isPrivate := true,
                     userId := some "guest" }],
          botCount := 1, userInfo := { points := 0, userId := some "guest" } }
        "zzz" true =
      { state := { bots := [{ id := "bot_9", username := "w9",
                              status := .waitingForVerification, createdAt := 9,
                              verificationDeadline := 10, isPrivate := true,
                              userId := some "guest" }],
                   botCount := 1, userInfo := { points := 0, userId := some "guest" } }
        resp := some (.err 404 .botNotFound)
        writes := [] } ∧
    verifyBot
        { bots := [{ id := "bot_9", username := "w9", status := .waitingForVerification,
                     createdAt := 9, verificationDeadline := 10, isPrivate := true,
                     userId := some "guest" }],
          botCount := 1, userInfo := { points := 0, userId := some "guest" } }
        "bot_9" true =
      { state := { bots := [{ id := "bot_9", username := "w9", status := .verified,
                              createdAt := 9, verificationDeadline := 10, isPrivate := true,
                              userId := some "guest" }],
                   botCount := 1, userInfo := { points := 0, userId := some "guest" } }
        resp := some (.verifiedMsg "w9")
        writes := [.saveBots] } := by
  refine ⟨(C9_verify_behavior
    { bots := [{ id := "bot_9", username := "w9", status := .waitingForVerification,
                 createdAt := 9, verificationDeadline := 10, isPrivate := true,
                 userId := some "guest" }],
      botCount := 1, userInfo := { points := 0, userId := some "guest" } } "zzz").1 true
    (by decide), ?_⟩
  exact ((C9_verify_behavior
    { bots := [{ id := "bot_9", username := "w9", status := .waitingForVerification,
                 createdAt := 9, verificationDeadline := 10, isPrivate := true,
                 userId := some "guest" }],
      botCount := 1, userInfo := { points := 0, userId := some "guest" } } "bot_9").2
    { id := "bot_9", username := "w9", status := .waitingForVerification, createdAt := 9,
      verificationDeadline := 10, isPrivate := true, userId := some "guest" }
    (by decide)).1

/-- C10: `botCount` equals the length of `bots` after every `loadData`
variant, and this equality is preserved by every outcome of both createBot
variants (validation failure, either persistence failure, success). -/
theorem C10_botCount_eq_length (st : ServerState) (req : CreateReq) (io : SaveOracle)
    (botDoc : Option (List BotRecord)) (userDoc : Option RawUser)
    (h : st.botCount = st.bots.length) :
    (loadDataPerUser botDoc userDoc).1.botCount =
        (loadDataPerUser botDoc userDoc).1.bots.length ∧
    (loadDataHealGlobal botDoc userDoc).1.botCount =
        (loadDataHealGlobal botDoc userDoc).1.bots.length ∧
    (loadDataPlain st botDoc userDoc).1.botCount =
        (loadDataPlain st botDoc userDoc).1.bots.length ∧
    (createBotGlobal st req io).state.botCount =
        (createBotGlobal st req io).state.bots.length ∧
    (createBotPerUser st req io).state.botCount =
        (createBotPerUser st req io).state.bots.length := by
  refine ⟨?_, ?_, ?_, createBotGlobal_count st req io h, createBotPerUser_count st req io h⟩
  · cases botDoc <;> cases userDoc <;> rfl
  · cases botDoc <;> cases userDoc <;> rfl
  · cases botDoc <;> cases userDoc <;> rfl

/-- C10 witness: concrete successful creation keeps the counter in sync. -/
theorem C10_botCount_eq_length_witness :
    (createBotGlobal
        { bots := [], botCount := 0, userInfo := { points := 800, userId := none } }
        { username := some "w10", isPrivate := true, userId := none, now := 23 }
        { userSaveOk := true, botsSaveOk := true, compSaveOk := true }).state.botCount =
      (createBotGlobal
        { bots := [], botCount := 0, userInfo := { points := 800, userId := none } }
        { username := some "w10", isPrivate := true, userId := none, now := 23 }
        { userSaveOk := true, botsSaveOk := true, compSaveOk := true }).state.bots.length :=
  (C10_botCount_eq_length
    { bots := [], botCount := 0, userInfo := { points := 800, userId := none } }
    { username := some "w10", isPrivate := true, userId := none, now := 23 }
    { userSaveOk := true, botsSaveOk := true, compSaveOk := true } none none rfl).2.2.2.1

end AppBackend
